import Mathlib

/-!
Shallow embedding of the Asterinas terminal subsystem
(src/kernel/src/device/tty/mod.rs), the signal-mask record
(src/src/kxos-std/src/process/signal/sig_mask.rs) and the wait4 syscall
(src/services/aster-nix/src/syscall/wait4.rs), together with theorems
checking the natural-language specification against these definitions.

The `Tty` façade code is present in the sources; the `LineDiscipline` and
`JobControl` components it calls live in modules that are not part of the
given sources, so they are modelled from the specification (each such
definition carries a doc comment saying so).
-/

namespace Asterinas

/-- Kernel error kinds relevant to the terminal subsystem (spec §7):
`EINTR` = Interrupted, `EFAULT` = bad user memory, `EINVAL` =
InvalidArgument, plus an opaque catch-all for errors produced by
external collaborators. -/
inductive Err where
  | EINTR
  | EFAULT
  | EINVAL
  | other (code : Nat)
deriving DecidableEq, Repr

/-- The termios record as described in spec §6: input flags, output flags,
control flags, local flags, line discipline selector, control-character
byte table, input speed, output speed. Exchanged verbatim with user
space. -/
structure Termios where
  c_iflags : Nat
  c_oflags : Nat
  c_cflags : Nat
  c_lflags : Nat
  c_line_sel : Nat
  c_cc : List Nat
  c_ispeed : Nat
  c_ospeed : Nat
deriving DecidableEq, Repr

/-- The window-size record (spec §6): rows, columns, horizontal pixels,
vertical pixels. Purely advisory, no semantic validation. -/
structure WinSize where
  ws_row : Nat
  ws_col : Nat
  ws_xpixel : Nat
  ws_ypixel : Nat
deriving DecidableEq, Repr

/-- Modelled from the spec: the canonical-mode flag consulted by the line
discipline is a bit of the local-flags word of the termios record
(spec §3, Termios: "a canonical-mode flag consulted by the line
discipline"). The concrete bit index is irrelevant to the theorems
below. -/
def Termios.isCanon (t : Termios) : Bool :=
  t.c_lflags.testBit 1

/-- Modelled from the spec: the Line Discipline state (spec §3): an input
queue of pending bytes (`readBuf` holds the readable content: all queued
bytes in raw mode, the bytes of completed lines in canonical mode),
the partial not-yet-terminated line of canonical mode (`currentLine`),
the termios record and the window-size record. The module
`kernel/src/device/tty/line_discipline.rs` is not among the given
sources. -/
structure LineDiscipline where
  termios : Termios
  winsize : WinSize
  currentLine : List Nat
  readBuf : List Nat
deriving DecidableEq, Repr

/-- Modelled from the spec: `set_termios(t)` is an atomic replace of the
termios record; "setting does not implicitly flush buffered input"
(spec §4.1). -/
def LineDiscipline.set_termios (ld : LineDiscipline) (t : Termios) : LineDiscipline :=
  { ld with termios := t }

/-- Modelled from the spec: `drain_input()` "discards all buffered, unread
queued/partial content" (spec §4.1). -/
def LineDiscipline.drain_input (ld : LineDiscipline) : LineDiscipline :=
  { ld with currentLine := [], readBuf := [] }

/-- Modelled from the spec: `window_size()` reads the window-size record
(spec §4.1). -/
def LineDiscipline.window_size (ld : LineDiscipline) : WinSize :=
  ld.winsize

/-- Modelled from the spec: `set_window_size(w)` replaces the window-size
record (spec §4.1). -/
def LineDiscipline.set_window_size (ld : LineDiscipline) (w : WinSize) : LineDiscipline :=
  { ld with winsize := w }

/-- Outcome of the blocking wait inside a line-discipline `read` on an
empty queue: either the wait is cancelled by a pending signal, or at
least one byte arrives (spec §4.1: "the caller must block until at
least one byte arrives (or the wait is interrupted)"). The arrival
case carries the nonempty batch of bytes pushed while blocked. -/
inductive ReadWake where
  | interrupted
  | arrived (b : Nat) (bs : List Nat)
deriving DecidableEq, Repr

/-- The canonical-mode line at the head of the readable content: bytes up
to and including the first line terminator (spec §4.1: canonical `read`
"returns bytes only from a completed line, including the terminator,
and never spans multiple lines in one call"). -/
def takeLine : List Nat → List Nat
  | [] => []
  | b :: rest => if b = 10 then [b] else b :: takeLine rest

/-- Modelled from the spec: the immediate (non-blocking) part of the line
discipline `read` on nonempty readable content: raw mode returns
available queued bytes up to the buffer size; canonical mode returns
bytes of the oldest completed line only (spec §4.1). The returned
bytes are removed from the queue. -/
def LineDiscipline.readAvail (ld : LineDiscipline) (n : Nat) :
    Except Err (List Nat) × LineDiscipline :=
  let avail := if ld.termios.isCanon then takeLine ld.readBuf else ld.readBuf
  let out := avail.take n
  (Except.ok out, { ld with readBuf := ld.readBuf.drop out.length })

/-- Modelled from the spec: `read(buffer)` (spec §4.1). With content
available it returns immediately; on an empty queue the caller blocks
until bytes arrive (modelled by the `ReadWake` outcome) or the wait is
cancelled by a pending signal, in which case it fails with
`Interrupted` and the state is untouched. -/
def LineDiscipline.read (ld : LineDiscipline) (n : Nat) (wake : ReadWake) :
    Except Err (List Nat) × LineDiscipline :=
  match ld.readBuf with
  | [] =>
    match wake with
    | ReadWake.interrupted => (Except.error Err.EINTR, ld)
    | ReadWake.arrived b bs =>
      LineDiscipline.readAvail { ld with readBuf := b :: bs } n
  | _ :: _ => ld.readAvail n

/-- Modelled from the spec: the Job Control state (spec §3): an optional
foreground process-group reference, absent until a controlling terminal
relationship is established. Process groups are identified by a
number. The module defining `JobControl` is not among the given
sources. -/
structure JobControl where
  foreground : Option Nat
deriving DecidableEq, Repr

/-- Outcome of the blocking wait inside `wait_until_in_foreground` for a
caller that is not currently in the foreground group: either the
caller's group eventually becomes the foreground group, or the wait is
cancelled by a pending signal (spec §4.2). -/
inductive WaitOutcome where
  | promoted
  | interrupted
deriving DecidableEq, Repr

/-- Modelled from the spec: `wait_until_in_foreground()` "blocks the
calling thread until its process group equals the foreground group;
returns immediately if already foreground; fails with `Interrupted` if
a signal arrives during the wait" (spec §4.2). -/
def JobControl.wait_until_in_foreground (jc : JobControl) (caller : Nat)
    (outcome : WaitOutcome) : Except Err Unit :=
  if jc.foreground = some caller then Except.ok ()
  else
    match outcome with
    | WaitOutcome.promoted => Except.ok ()
    | WaitOutcome.interrupted => Except.error Err.EINTR

/-- The Tty device façade state: one line discipline and one job-control
instance (src/kernel/src/device/tty/mod.rs, `struct Tty`; the name and
driver fields play no role in the embedded operations). -/
structure Tty where
  ldisc : LineDiscipline
  job_control : JobControl
deriving DecidableEq, Repr

/-- Embedding of `Tty::read` (FileIo) from src/kernel/src/device/tty/mod.rs:
it calls `job_control.wait_until_in_foreground()?` and then
`ldisc.read(..)?`, propagating either failure. The copy of the already
read bytes into the caller's buffer is user-memory marshalling,
declared out of scope by spec §1, and is modelled as infallible. -/
def Tty.read (tty : Tty) (caller : Nat) (outcome : WaitOutcome)
    (n : Nat) (wake : ReadWake) : Except Err (List Nat) × Tty :=
  match tty.job_control.wait_until_in_foreground caller outcome with
  | Except.error e => (Except.error e, tty)
  | Except.ok _ =>
    ((tty.ldisc.read n wake).1, { tty with ldisc := (tty.ldisc.read n wake).2 })

/-- What `Tty::write` emits on the output sink: the decoded text when the
buffer is valid UTF-8, otherwise the diagnostic rendering
(`println!("Not utf-8 content: {:?}", buf)`). -/
inductive TtyOutput where
  | text (bytes : List Nat)
  | diagnostic (bytes : List Nat)
deriving DecidableEq, Repr

/-- A UTF-8 continuation byte, `0x80 ..= 0xBF`. -/
def utf8Cont (b : Nat) : Bool :=
  0x80 ≤ b && b ≤ 0xBF

/-- UTF-8 validity of a byte sequence, embedding the validation performed
by Rust's `core::str::from_utf8` (the standard UTF-8 acceptance table,
rejecting overlong forms, surrogates and code points above U+10FFFF). -/
def utf8Valid : List Nat → Bool
  | [] => true
  | b :: rest =>
    if b ≤ 0x7F then utf8Valid rest
    else if 0xC2 ≤ b && b ≤ 0xDF then
      match rest with
      | c :: r => utf8Cont c && utf8Valid r
      | [] => false
    else if 0xE0 ≤ b && b ≤ 0xEF then
      match rest with
      | c1 :: c2 :: r =>
        (if b = 0xE0 then 0xA0 ≤ c1 && c1 ≤ 0xBF
         else if b = 0xED then 0x80 ≤ c1 && c1 ≤ 0x9F
         else utf8Cont c1) && utf8Cont c2 && utf8Valid r
      | _ => false
    else if 0xF0 ≤ b && b ≤ 0xF4 then
      match rest with
      | c1 :: c2 :: c3 :: r =>
        (if b = 0xF0 then 0x90 ≤ c1 && c1 ≤ 0xBF
         else if b = 0xF4 then 0x80 ≤ c1 && c1 ≤ 0x8F
         else utf8Cont c1) && utf8Cont c2 && utf8Cont c3 && utf8Valid r
      | _ => false
    else false
termination_by l => l.length
decreasing_by all_goals simp <;> omega

/-- Embedding of `Tty::write` (FileIo) from src/kernel/src/device/tty/mod.rs:
`reader.collect()?` (whose result, fallible user-memory reading, is the
`collected` argument), then `from_utf8` - printing the content on
success and the diagnostic rendering on failure - and finally
`Ok(buf.len())`. -/
def Tty.write (collected : Except Err (List Nat)) : Except Err (Nat × TtyOutput) :=
  match collected with
  | Except.error e => Except.error e
  | Except.ok buf =>
    Except.ok (buf.length,
      if utf8Valid buf then TtyOutput.text buf else TtyOutput.diagnostic buf)

/-- The ioctl command codes dispatched by `Tty::ioctl`; every other code is
carried by the `other` constructor. -/
inductive IoctlCmd where
  | TCGETS
  | TCSETS
  | TCSETSW
  | TCSETSF
  | TIOCGWINSZ
  | TIOCSWINSZ
  | other (code : Nat)
deriving DecidableEq, Repr

/-- A value written back to user memory by an ioctl. -/
inductive UserWrite where
  | termios (t : Termios)
  | winsize (w : WinSize)
deriving DecidableEq, Repr

/-- Result of one `Tty::ioctl` call: the returned value (or error), the
terminal state afterwards, and the value written to user memory, if
any. -/
structure IoctlResult where
  ret : Except Err Int
  tty : Tty
  userWrite : Option UserWrite
deriving Repr

/-- Embedding of `Tty::ioctl` from src/kernel/src/device/tty/mod.rs.
User-memory accesses are abstracted: `readTermios` / `readWinsize` are
the results of `current_userspace!().read_val(arg)` in the respective
branches, `userWriteOk` tells whether `write_val` succeeds, and
`jobIoctl` is the job-control capability-operation handler reached by
`job_ioctl(cmd, arg, false)` in the fallback branch. -/
def Tty.ioctl (tty : Tty) (cmd : IoctlCmd)
    (readTermios : Except Err Termios) (readWinsize : Except Err WinSize)
    (userWriteOk : Bool)
    (jobIoctl : IoctlCmd → Nat → Bool → Except Err Unit) (arg : Nat) :
    IoctlResult :=
  match cmd with
  | IoctlCmd.TCGETS =>
    if userWriteOk then
      { ret := Except.ok 0, tty := tty,
        userWrite := some (UserWrite.termios tty.ldisc.termios) }
    else { ret := Except.error Err.EFAULT, tty := tty, userWrite := none }
  | IoctlCmd.TCSETS =>
    match readTermios with
    | Except.error e => { ret := Except.error e, tty := tty, userWrite := none }
    | Except.ok t =>
      { ret := Except.ok 0,
        tty := { tty with ldisc := tty.ldisc.set_termios t },
        userWrite := none }
  | IoctlCmd.TCSETSW =>
    match readTermios with
    | Except.error e => { ret := Except.error e, tty := tty, userWrite := none }
    | Except.ok t =>
      { ret := Except.ok 0,
        tty := { tty with ldisc := tty.ldisc.set_termios t },
        userWrite := none }
  | IoctlCmd.TCSETSF =>
    match readTermios with
    | Except.error e => { ret := Except.error e, tty := tty, userWrite := none }
    | Except.ok t =>
      { ret := Except.ok 0,
        tty := { tty with ldisc := (tty.ldisc.set_termios t).drain_input },
        userWrite := none }
  | IoctlCmd.TIOCGWINSZ =>
    if userWriteOk then
      { ret := Except.ok 0, tty := tty,
        userWrite := some (UserWrite.winsize tty.ldisc.window_size) }
    else { ret := Except.error Err.EFAULT, tty := tty, userWrite := none }
  | IoctlCmd.TIOCSWINSZ =>
    match readWinsize with
    | Except.error e => { ret := Except.error e, tty := tty, userWrite := none }
    | Except.ok w =>
      { ret := Except.ok 0,
        tty := { tty with ldisc := tty.ldisc.set_window_size w },
        userWrite := none }
  | IoctlCmd.other c =>
    match jobIoctl (IoctlCmd.other c) arg false with
    | Except.error e => { ret := Except.error e, tty := tty, userWrite := none }
    | Except.ok _ => { ret := Except.ok 0, tty := tty, userWrite := none }

/-- Embedding of the `send_signal` closure built by
`new_job_control_and_ldisc` (src/kernel/src/device/tty/mod.rs): if the
job-control instance has no foreground group the closure returns
without doing anything; otherwise it broadcasts the signal to the
foreground group. `broadcast_signal` itself is modelled from the spec
("delivers `signal` to every process in the current foreground group",
spec §4.2): the result lists the (group, signal) deliveries made. -/
def send_signal (jc : JobControl) (signal : Nat) : List (Nat × Nat) :=
  match jc.foreground with
  | none => []
  | some foreground => [(foreground, signal)]

/-- Device classes (src `DeviceType`). -/
inductive DeviceType where
  | CharDevice
  | BlockDevice
  | MiscDevice
deriving DecidableEq, Repr

/-- A device id: major and minor number (src `DeviceId`). -/
structure DeviceId where
  major : Nat
  minor : Nat
deriving DecidableEq, Repr

/-- `DeviceId::new(major, minor)`. -/
def DeviceId.new (major minor : Nat) : DeviceId :=
  { major := major, minor := minor }

/-- Embedding of `<Tty as Device>::type_`: always the character-device
class, whatever the terminal state. -/
def Tty.type_of (_tty : Tty) : DeviceType :=
  DeviceType.CharDevice

/-- Embedding of `<Tty as Device>::id`: always `DeviceId::new(88, 0)` (the
same value as /dev/console in Linux), whatever the terminal state. -/
def Tty.dev_id (_tty : Tty) : DeviceId :=
  DeviceId.new 88 0

/-- Bitwise complement of a `u64` value: `!x` in Rust, `x ^ (2^64 - 1)`
for `x < 2^64`. -/
def u64Not (x : Nat) : Nat :=
  x ^^^ (2 ^ 64 - 1)

/-- Modelled from the spec: the smallest standard signal number. The
constants module of the signal subsystem is not among the given
sources; the standard POSIX minimum, 1, is used. No theorem below
depends on the concrete value. -/
def MIN_STD_SIG_NUM : Nat := 1

/-- The signal-mask record
(src/src/kxos-std/src/process/signal/sig_mask.rs): a 64-bit pattern,
one bit per standard signal. Bits are embedded as a natural number;
every operation of the source preserves the range below `2^64` when
its inputs are in range. -/
structure SigMask where
  bits : Nat
deriving DecidableEq, Repr

/-- `From<u64> for SigMask`: wraps the bit pattern unchanged. -/
def SigMask.ofU64 (bits : Nat) : SigMask :=
  { bits := bits }

/-- `SigMask::new_empty()`. -/
def SigMask.new_empty : SigMask :=
  SigMask.ofU64 0

/-- `SigMask::new_full()`: `!0u64`. -/
def SigMask.new_full : SigMask :=
  SigMask.ofU64 (2 ^ 64 - 1)

/-- `SigMask::as_u64`. -/
def SigMask.as_u64 (m : SigMask) : Nat :=
  m.bits

/-- `SigMask::block`: `self.bits |= block_sets`. -/
def SigMask.block (m : SigMask) (block_sets : Nat) : SigMask :=
  { bits := m.bits ||| block_sets }

/-- `SigMask::unblock`: `self.bits &= !unblock_sets`. -/
def SigMask.unblock (m : SigMask) (unblock_sets : Nat) : SigMask :=
  { bits := m.bits &&& u64Not unblock_sets }

/-- `SigMask::count`: number of set bits. -/
def SigMask.count (m : SigMask) : Nat :=
  (Nat.bitIndices m.bits).length

/-- `SigMask::contains`: tests the bit at index
`signum - MIN_STD_SIG_NUM` (`num_to_idx`). -/
def SigMask.contains (m : SigMask) (signum : Nat) : Bool :=
  m.bits &&& (1 <<< (signum - MIN_STD_SIG_NUM)) != 0

/-- The syscall return value wrapper of aster-nix. -/
inductive SyscallReturn where
  | Return (val : Int)
deriving DecidableEq, Repr

/-- Embedding of `sys_wait4`
(src/services/aster-nix/src/syscall/wait4.rs). External collaborators
are abstracted: `waitResult` is the outcome of
`wait_child_exit(process_filter, wait_options)` - on success a pair
`(return_pid, exit_code)` - and `writeResult` tells whether
`write_val_to_user(exit_status_ptr, &exit_code)` succeeds when it is
attempted. The result carries the syscall return and the user-memory
write performed, if any, as a pair (address, value). -/
def sys_wait4 (waitResult : Except Err (Nat × Nat)) (exit_status_ptr : Nat)
    (writeResult : Except Err Unit) :
    Except Err (SyscallReturn × Option (Nat × Nat)) :=
  match waitResult with
  | Except.error e => Except.error e
  | Except.ok (return_pid, exit_code) =>
    if return_pid ≠ 0 ∧ exit_status_ptr ≠ 0 then
      match writeResult with
      | Except.error e => Except.error e
      | Except.ok _ =>
        Except.ok (SyscallReturn.Return return_pid,
          some (exit_status_ptr, exit_code))
    else Except.ok (SyscallReturn.Return return_pid, none)

/-! Theorems -/

/-- If a line-discipline `read` fails, the line-discipline state is
unchanged: no byte is consumed on failure. -/
theorem LineDiscipline.read_error_frame (ld : LineDiscipline) (n : Nat)
    (wake : ReadWake) (e : Err)
    (h : (ld.read n wake).1 = Except.error e) : (ld.read n wake).2 = ld := by
  cases hb : ld.readBuf with
  | nil =>
    cases wake with
    | interrupted => simp [LineDiscipline.read, hb]
    | arrived b bs => simp [LineDiscipline.read, hb, LineDiscipline.readAvail] at h
  | cons x xs => simp [LineDiscipline.read, hb, LineDiscipline.readAvail] at h

/-- Claim C1: `Tty::read` first calls `wait_until_in_foreground()`; only on
success does it call the line discipline's `read`; any failure from either
step is returned unchanged; and on any failure the read consumes nothing:
the line-discipline state is the same as before the call. -/
theorem C1_tty_read_gating (tty : Tty) (caller : Nat) (outcome : WaitOutcome)
    (n : Nat) (wake : ReadWake) :
    (tty.read caller outcome n wake =
      match tty.job_control.wait_until_in_foreground caller outcome with
      | Except.error e => (Except.error e, tty)
      | Except.ok _ =>
        ((tty.ldisc.read n wake).1,
          { tty with ldisc := (tty.ldisc.read n wake).2 })) ∧
    (∀ e, (tty.read caller outcome n wake).1 = Except.error e →
      (tty.read caller outcome n wake).2 = tty) := by
  constructor
  · unfold Tty.read
    cases tty.job_control.wait_until_in_foreground caller outcome with
    | error e => rfl
    | ok u => rfl
  · intro e h
    unfold Tty.read at h ⊢
    cases hw : tty.job_control.wait_until_in_foreground caller outcome with
    | error e₂ => rfl
    | ok u =>
      rw [hw] at h
      simp only at h ⊢
      have := LineDiscipline.read_error_frame tty.ldisc n wake e h
      simp [this]

/-- Witness for C1 at a concrete input: the caller's group 2 is not the
foreground group 1 and the wait is interrupted, so the read fails and
the terminal state is untouched. -/
theorem C1_tty_read_gating_witness :
    (Tty.read
        { ldisc := { termios := { c_iflags := 0, c_oflags := 0, c_cflags := 0,
                                  c_lflags := 0, c_line_sel := 0, c_cc := [],
                                  c_ispeed := 0, c_ospeed := 0 },
                     winsize := { ws_row := 0, ws_col := 0, ws_xpixel := 0,
                                  ws_ypixel := 0 },
                     currentLine := [], readBuf := [7] },
          job_control := { foreground := some 1 } }
        2 WaitOutcome.interrupted 5 ReadWake.interrupted).2 =
      { ldisc := { termios := { c_iflags := 0, c_oflags := 0, c_cflags := 0,
                                c_lflags := 0, c_line_sel := 0, c_cc := [],
                                c_ispeed := 0, c_ospeed := 0 },
                   winsize := { ws_row := 0, ws_col := 0, ws_xpixel := 0,
                                ws_ypixel := 0 },
                   currentLine := [], readBuf := [7] },
        job_control := { foreground := some 1 } } :=
  (C1_tty_read_gating _ 2 WaitOutcome.interrupted 5 ReadWake.interrupted).2
    Err.EINTR rfl

/-- Claim C2: the TCSETSF control operation replaces the termios record
with the supplied value and then drains the input: afterwards the input
queue and the partial line are empty, so no byte buffered before the
operation remains readable, and the operation returns 0. -/
theorem C2_tcsetsf_drains (tty : Tty) (t : Termios)
    (readWinsize : Except Err WinSize) (userWriteOk : Bool)
    (jobIoctl : IoctlCmd → Nat → Bool → Except Err Unit) (arg : Nat) :
    (tty.ioctl IoctlCmd.TCSETSF (Except.ok t) readWinsize userWriteOk
        jobIoctl arg).tty.ldisc = (tty.ldisc.set_termios t).drain_input ∧
    (tty.ioctl IoctlCmd.TCSETSF (Except.ok t) readWinsize userWriteOk
        jobIoctl arg).tty.ldisc.termios = t ∧
    (tty.ioctl IoctlCmd.TCSETSF (Except.ok t) readWinsize userWriteOk
        jobIoctl arg).tty.ldisc.readBuf = [] ∧
    (tty.ioctl IoctlCmd.TCSETSF (Except.ok t) readWinsize userWriteOk
        jobIoctl arg).tty.ldisc.currentLine = [] ∧
    (tty.ioctl IoctlCmd.TCSETSF (Except.ok t) readWinsize userWriteOk
        jobIoctl arg).ret = Except.ok 0 :=
  ⟨rfl, rfl, rfl, rfl, rfl⟩

/-- Claim C3: the TCSETSW control operation has exactly the same effect as
the TCSETS control operation, on every terminal state and every input:
output draining is unimplemented and behaves as a no-op. -/
theorem C3_tcsetsw_eq_tcsets (tty : Tty) (readTermios : Except Err Termios)
    (readWinsize : Except Err WinSize) (userWriteOk : Bool)
    (jobIoctl : IoctlCmd → Nat → Bool → Except Err Unit) (arg : Nat) :
    tty.ioctl IoctlCmd.TCSETSW readTermios readWinsize userWriteOk
        jobIoctl arg =
      tty.ioctl IoctlCmd.TCSETS readTermios readWinsize userWriteOk
        jobIoctl arg := by
  cases readTermios with
  | error e => rfl
  | ok t => rfl

/-- Claim C4: `Tty::write` on a buffer readable from the caller always
returns the full length of the buffer as consumed; when the buffer is
not valid UTF-8 the output degrades to the diagnostic rendering and the
call still succeeds - text-decode failure is never surfaced as an
error. -/
theorem C4_write_full_length (buf : List Nat) :
    Tty.write (Except.ok buf) =
      Except.ok (buf.length,
        if utf8Valid buf then TtyOutput.text buf
        else TtyOutput.diagnostic buf) :=
  rfl

/-- Claim C5: the signal-emission hook bound at construction delivers
nothing (and raises no error) when there is no foreground process
group, and broadcasts the signal to exactly the foreground group when
one exists. -/
theorem C5_send_signal_foreground (jc : JobControl) (signal : Nat) :
    (jc.foreground = none → send_signal jc signal = []) ∧
    (∀ g, jc.foreground = some g → send_signal jc signal = [(g, signal)]) := by
  constructor
  · intro h
    simp [send_signal, h]
  · intro g h
    simp [send_signal, h]

/-- Witness for C5: with no foreground group the hook delivers nothing;
with foreground group 5 a signal 2 is delivered to exactly group 5. -/
theorem C5_send_signal_foreground_witness :
    send_signal { foreground := none } 2 = [] ∧
    send_signal { foreground := some 5 } 2 = [(5, 2)] :=
  ⟨(C5_send_signal_foreground { foreground := none } 2).1 rfl,
   (C5_send_signal_foreground { foreground := some 5 } 2).2 5 rfl⟩

/-- Claim C6: for every code other than the six recognized ones,
`Tty::ioctl` forwards the code and the argument unchanged to the
job-control capability-operation handler with the
privileged-ioctl-context flag set to false, returns that handler's
error if it fails and 0 otherwise, and neither changes the terminal
state nor writes to user memory. -/
theorem C6_ioctl_fallback (tty : Tty) (c : Nat)
    (readTermios : Except Err Termios) (readWinsize : Except Err WinSize)
    (userWriteOk : Bool)
    (jobIoctl : IoctlCmd → Nat → Bool → Except Err Unit) (arg : Nat) :
    (tty.ioctl (IoctlCmd.other c) readTermios readWinsize userWriteOk
        jobIoctl arg).ret =
      (jobIoctl (IoctlCmd.other c) arg false).map (fun _ => (0 : Int)) ∧
    (tty.ioctl (IoctlCmd.other c) readTermios readWinsize userWriteOk
        jobIoctl arg).tty = tty ∧
    (tty.ioctl (IoctlCmd.other c) readTermios readWinsize userWriteOk
        jobIoctl arg).userWrite = none := by
  refine ⟨?_, ?_, ?_⟩ <;>
    cases h : jobIoctl (IoctlCmd.other c) arg false <;>
      simp [Tty.ioctl, h, Except.map]

/-- Claim C7: the plain TCSETS control operation replaces the termios
record with the supplied value and leaves everything else - the input
queue, the partial line and the window size - unchanged, returning 0:
a plain set flushes no buffered input. -/
theorem C7_tcsets_frame (tty : Tty) (t : Termios)
    (readWinsize : Except Err WinSize) (userWriteOk : Bool)
    (jobIoctl : IoctlCmd → Nat → Bool → Except Err Unit) (arg : Nat) :
    (tty.ioctl IoctlCmd.TCSETS (Except.ok t) readWinsize userWriteOk
        jobIoctl arg).tty.ldisc.termios = t ∧
    (tty.ioctl IoctlCmd.TCSETS (Except.ok t) readWinsize userWriteOk
        jobIoctl arg).tty.ldisc.readBuf = tty.ldisc.readBuf ∧
    (tty.ioctl IoctlCmd.TCSETS (Except.ok t) readWinsize userWriteOk
        jobIoctl arg).tty.ldisc.currentLine = tty.ldisc.currentLine ∧
    (tty.ioctl IoctlCmd.TCSETS (Except.ok t) readWinsize userWriteOk
        jobIoctl arg).tty.ldisc.winsize = tty.ldisc.winsize ∧
    (tty.ioctl IoctlCmd.TCSETS (Except.ok t) readWinsize userWriteOk
        jobIoctl arg).ret = Except.ok 0 :=
  ⟨rfl, rfl, rfl, rfl, rfl⟩

/-- Claim C8: the device-identity operations of every Tty instance report
the character-device class and the fixed device id with major number 88
and minor number 0, regardless of the terminal's state. -/
theorem C8_device_identity (tty : Tty) :
    Tty.type_of tty = DeviceType.CharDevice ∧
    Tty.dev_id tty = { major := 88, minor := 0 } :=
  ⟨rfl, rfl⟩

/-- Claim C9: for every signal mask with bit pattern `b` and every 64-bit
set `s`, `block s` yields pattern `b ||| s`, `unblock s` yields
`b &&& !s`, blocking then unblocking the same set clears exactly those
bits, `SigMask::from(b).as_u64() = b`, and `contains n` holds exactly
when the bit at index `n - MIN_STD_SIG_NUM` is set. -/
theorem C9_sigmask_bit_algebra (b s n : Nat) (_hb : b < 2 ^ 64)
    (hs : s < 2 ^ 64) (_hn : MIN_STD_SIG_NUM ≤ n) :
    ((SigMask.ofU64 b).block s).bits = b ||| s ∧
    ((SigMask.ofU64 b).unblock s).bits = b &&& u64Not s ∧
    (((SigMask.ofU64 b).block s).unblock s).bits = b &&& u64Not s ∧
    (SigMask.ofU64 b).as_u64 = b ∧
    (SigMask.ofU64 b).contains n = b.testBit (n - MIN_STD_SIG_NUM) := by
  refine ⟨rfl, rfl, ?_, rfl, ?_⟩
  · show (b ||| s) &&& u64Not s = b &&& u64Not s
    apply Nat.eq_of_testBit_eq
    intro i
    by_cases hi : i < 64
    · have hm : ((2 : Nat) ^ 64 - 1).testBit i = true := by
        rw [Nat.testBit_two_pow_sub_one]
        simpa using hi
      simp only [u64Not, Nat.testBit_and, Nat.testBit_or, Nat.testBit_xor, hm]
      cases hsb : s.testBit i <;> simp
    · have hsz : s.testBit i = false :=
        Nat.testBit_eq_false_of_lt
          (lt_of_lt_of_le hs (Nat.pow_le_pow_right (by omega) (by omega)))
      simp [u64Not, hi, hsz]
  · show (b &&& (1 <<< (n - MIN_STD_SIG_NUM)) != 0) =
      b.testBit (n - MIN_STD_SIG_NUM)
    rw [Nat.shiftLeft_eq, one_mul, Nat.and_two_pow]
    cases h : b.testBit (n - MIN_STD_SIG_NUM) <;> simp [h]

/-- Witness for C9 at bit pattern 5, set 3, signal number 2. -/
theorem C9_sigmask_bit_algebra_witness :
    ((5 : Nat) < 2 ^ 64 ∧ (3 : Nat) < 2 ^ 64 ∧ MIN_STD_SIG_NUM ≤ 2) ∧
    (((SigMask.ofU64 5).block 3).bits = 5 ||| 3 ∧
     ((SigMask.ofU64 5).unblock 3).bits = 5 &&& u64Not 3 ∧
     (((SigMask.ofU64 5).block 3).unblock 3).bits = 5 &&& u64Not 3 ∧
     (SigMask.ofU64 5).as_u64 = 5 ∧
     (SigMask.ofU64 5).contains 2 = Nat.testBit 5 (2 - MIN_STD_SIG_NUM)) :=
  ⟨⟨by decide, by decide, by decide⟩,
   C9_sigmask_bit_algebra 5 3 2 (by decide) (by decide) (by decide)⟩

/-- Claim C10: whenever `sys_wait4` succeeds, its return value is the pid
produced by the child-wait step, and the exit status is written to user
memory at `exit_status_ptr` exactly when both the returned pid and
`exit_status_ptr` are non-zero - in every other successful case no user
memory is written. -/
theorem C10_wait4_write_guard (waitResult : Except Err (Nat × Nat))
    (exit_status_ptr : Nat) (writeResult : Except Err Unit)
    (ret : SyscallReturn) (uw : Option (Nat × Nat))
    (h : sys_wait4 waitResult exit_status_ptr writeResult =
      Except.ok (ret, uw)) :
    ∃ return_pid exit_code,
      waitResult = Except.ok (return_pid, exit_code) ∧
      ret = SyscallReturn.Return return_pid ∧
      uw = if return_pid ≠ 0 ∧ exit_status_ptr ≠ 0
           then some (exit_status_ptr, exit_code) else none := by
  cases waitResult with
  | error e => exact absurd h (by simp [sys_wait4])
  | ok p =>
    obtain ⟨pid, code⟩ := p
    simp only [sys_wait4] at h
    split at h
    case isTrue hc =>
      cases writeResult with
      | error e => exact Except.noConfusion h
      | ok u =>
        injection h with h
        injection h with h1 h2
        exact ⟨pid, code, rfl, h1.symm, by rw [if_pos hc]; exact h2.symm⟩
    case isFalse hc =>
      injection h with h
      injection h with h1 h2
      exact ⟨pid, code, rfl, h1.symm, by rw [if_neg hc]; exact h2.symm⟩

/-- Witness for C10: waiting yields pid 7 with exit code 3 and a non-zero
status pointer 100, so the status is written at 100 and the syscall
returns 7. -/
theorem C10_wait4_write_guard_witness :
    ∃ return_pid exit_code,
      (Except.ok (7, 3) : Except Err (Nat × Nat)) =
        Except.ok (return_pid, exit_code) ∧
      SyscallReturn.Return 7 = SyscallReturn.Return return_pid ∧
      (some (100, 3) : Option (Nat × Nat)) =
        (if return_pid ≠ 0 ∧ (100 : Nat) ≠ 0
         then some (100, exit_code) else none) :=
  C10_wait4_write_guard (Except.ok (7, 3)) 100 (Except.ok ())
    (SyscallReturn.Return 7) (some (100, 3)) rfl

end Asterinas
